import Mathlib

/-!
Shallow embedding of `telegra` (`src/telegra/__init__.py`), a Python client
binding for the telegra.ph publishing API, together with proofs about the
content-node model, the validation layer, the request/response handling and
the account-state updates.

Conventions of the embedding:
* Python exceptions are modelled by `Except TgError`; the constructors of
  `TgError` mirror the Python exception classes that can escape the code
  under consideration (`ValueError`, `TypeError`, `KeyError`,
  `TelegraphError`).
* JSON values are modelled by the inductive `Json`; a Python dict is an
  association list in insertion order.
* An operation that talks to the network is modelled as a function that
  also receives the decoded response envelope (the stubbed transport) and
  returns the list of request payloads it handed to the transport, so that
  "zero network calls" is the payload list being empty.
* Python truthiness of an optional string/dict/int is modelled explicitly
  (`none`, the empty string, the empty dict and `0` are falsy).
-/

/-- Errors that can escape the modelled code paths.  `valueError` and
`typeError` together are what the specification calls `ValidationError`,
`remote` is the specification's `RemoteError` (Python `TelegraphError`),
`keyError` is a Python `KeyError` on a missing dict key. -/
inductive TgError where
  | valueError (msg : String)
  | typeError (msg : String)
  | keyError (key : String)
  | remote (msg : String)
deriving Repr, DecidableEq

/-- JSON values (the wire form produced by `NodeElement.to_dict` and
carried in request payloads). Objects are association lists in insertion
order, mirroring Python dict literal construction. -/
inductive Json where
  | str (s : String)
  | num (n : Int)
  | bool (b : Bool)
  | null
  | arr (elems : List Json)
  | obj (fields : List (String × Json))
deriving Repr

/-- Keys of a JSON object (empty for non-objects). -/
def Json.keys : Json → List String
  | .obj fields => fields.map Prod.fst
  | _ => []

/-- First value bound to a key in a JSON object. -/
def Json.lookup (j : Json) (k : String) : Option Json :=
  match j with
  | .obj fields => fields.lookup k
  | _ => none

/-- `ALLOWED_TAGS` from the source, in source order (the Python set literal
at lines 14–18). -/
def ALLOWED_TAGS : List String :=
  ["a", "aside", "b", "blockquote", "br", "code", "em", "figcaption", "figure",
   "h3", "h4", "hr", "i", "iframe", "img", "li", "ol", "p", "pre", "s",
   "strong", "u", "ul", "video"]

/-- A content node: either a bare Python `str` child or a `NodeElement`
(with `tag`, optional `attrs` dict and optional `children` list), following
`NodeElement` and the `Union[str, "NodeElement"]` child type in the source. -/
inductive Node where
  | text (s : String)
  | element (tag : String) (attrs : Option (List (String × String)))
      (children : Option (List Node))

/-- A Python value as seen by the `length` validator: `None`, a `str`, or
some other (non-string, non-`None`) object, here represented by `int`. -/
inductive PyValue where
  | none
  | str (s : String)
  | int (n : Int)
deriving Repr, DecidableEq

/-- The inner `validate` closure of the `length(min, max)` validator
(source lines 26–44): `None` always passes, a non-string raises
`TypeError`, a string shorter than `min` or longer than `max` raises
`ValueError`; the messages name the attribute. -/
def lengthValidate (min max : Option Nat) (name : String) (value : PyValue) :
    Except TgError Unit :=
  match value with
  | .none => .ok ()
  | .int n =>
      .error (.typeError ("The attribute " ++ (name ++ (" must be a string (got "
        ++ toString n ++ " that is a <class 'int'>)."))))
  | .str s =>
      match min with
      | some m =>
          if s.length < m then
            .error (.valueError ("The attribute " ++ (name
              ++ (" length must be at least " ++ toString m ++ " (got "
              ++ toString s.length ++ ")."))))
          else
            match max with
            | some M =>
                if M < s.length then
                  .error (.valueError ("The attribute " ++ (name
                    ++ (" length must be at most " ++ toString M ++ " (got "
                    ++ toString s.length ++ ")."))))
                else .ok ()
            | Option.none => .ok ()
      | Option.none =>
          match max with
          | some M =>
              if M < s.length then
                .error (.valueError ("The attribute " ++ (name
                  ++ (" length must be at most " ++ toString M ++ " (got "
                  ++ toString s.length ++ ")."))))
              else .ok ()
          | Option.none => .ok ()

/-- Validated construction of a `NodeElement` (source lines 74–78): attrs
runs `validators.in_(ALLOWED_TAGS)` on `tag` at construction time and
raises `ValueError` when the tag is not a member. -/
def mkNodeElement (tag : String) (attrs : Option (List (String × String)))
    (children : Option (List Node)) : Except TgError Node :=
  if tag ∈ ALLOWED_TAGS then
    .ok (.element tag attrs children)
  else
    .error (.valueError ("'tag' must be in ALLOWED_TAGS (got " ++ tag ++ ")"))

mutual

/-- `NodeElement.to_dict` (source lines 80–89) extended to both node
variants: a bare string child is passed through verbatim (line 86), an
element becomes an object with key `tag` always, key `attrs` only when the
attrs dict is truthy and key `children` only when the children list is
truthy. -/
def Node.toWire : Node → Json
  | .text s => .str s
  | .element tag attrs children =>
      .obj (("tag", Json.str tag) ::
        ((match attrs with
          | some a => if a.isEmpty then [] else
              [("attrs", Json.obj (a.map (fun p => (p.1, Json.str p.2))))]
          | none => []) ++
         (match children with
          | some cs => if cs.isEmpty then [] else
              [("children", Json.arr (Node.toWireList cs))]
          | none => [])))

/-- The list comprehension on source lines 85–88, child by child. -/
def Node.toWireList : List Node → List Json
  | [] => []
  | n :: ns => Node.toWire n :: Node.toWireList ns

end

/-- A value placed in the form-encoded request payload: either a plain
string, or (for `content` and `fields`) the JSON value that the source
passes through `json.dumps` before embedding it as a single form field. -/
inductive FormValue where
  | str (s : String)
  | dumps (j : Json)
deriving Repr

/-- A request payload (the `data` dict handed to the transport), as an
association list in insertion order. -/
abbrev Payload := List (String × FormValue)

/-- The decoded response envelope, generic over the shape of the decoded
`result` payload: `ok` (bool), `result` (optional), `error` (optional
string), mirroring `TelegraphResult` (source lines 49–53). -/
structure Envelope (ρ : Type) where
  ok : Bool
  result : Option ρ := none
  error : Option String := none

/-- The envelope-checking part of `Telegraph._request` (source lines
139–142): when `ok` is false, raise `TelegraphError(result["error"])`
(a `KeyError` when the `error` key is absent); otherwise return the
envelope as a `TelegraphResult`. -/
def requestCheck {ρ : Type} (env : Envelope ρ) : Except TgError (Envelope ρ) :=
  if env.ok then .ok env
  else
    match env.error with
    | some e => .error (.remote e)
    | none => .error (.keyError "error")

/-- Python truthiness of an optional string (`if author_name:` and
friends): `None` and the empty string are falsy. -/
def truthyStr : Option String → Bool
  | none => false
  | some s => !(s == "")

/-- Python truthiness of an optional int (`if year:` in `getViews`):
`None` and `0` are falsy. -/
def truthyInt : Option Int → Bool
  | none => false
  | some n => !(n == 0)

/-- The `Account` record (source lines 56–71). -/
structure Account where
  short_name : String
  author_name : Option String := none
  author_url : Option String := none
  access_token : Option String := none
  auth_url : Option String := none
  page_count : Option Int := none
deriving Repr, DecidableEq

/-- A decoded account-operation `result` dict: each field is present
(`some`) or absent (`none`) in the dict. Only the six `Account` field
names may occur as keys (any other key would make `Account(**result)` and
`attrs.evolve` raise `TypeError`; such responses are outside this model). -/
structure AccountPatch where
  short_name : Option String := none
  author_name : Option String := none
  author_url : Option String := none
  access_token : Option String := none
  auth_url : Option String := none
  page_count : Option Int := none
deriving Repr, DecidableEq

/-- Python truthiness of the result dict (`if response.result:`): an
absent result is falsy, and a present dict is truthy iff it has a key. -/
def AccountPatch.isEmpty (p : AccountPatch) : Bool :=
  p.short_name.isNone && p.author_name.isNone && p.author_url.isNone &&
  p.access_token.isNone && p.auth_url.isNone && p.page_count.isNone

/-- `attrs.validators.optional(...)`: `None` passes, otherwise the wrapped
validator runs on the string. -/
def optionalLength (min max : Option Nat) (name : String) :
    Option String → Except TgError Unit
  | none => .ok ()
  | some s => lengthValidate min max name (.str s)

/-- The validating `Account` constructor (source lines 56–71): attrs runs
the field validators in declaration order — `short_name` is
`length(min=1, max=32)`, `author_name` is `optional(length(max=128))`,
`author_url` is `optional(length(max=512))`; the remaining fields are
unvalidated. -/
def mkAccount (short_name : String) (author_name author_url access_token
    auth_url : Option String) (page_count : Option Int) :
    Except TgError Account :=
  match lengthValidate (some 1) (some 32) "short_name" (.str short_name) with
  | .error e => .error e
  | .ok _ =>
      match optionalLength none (some 128) "author_name" author_name with
      | .error e => .error e
      | .ok _ =>
          match optionalLength none (some 512) "author_url" author_url with
          | .error e => .error e
          | .ok _ => .ok ⟨short_name, author_name, author_url, access_token,
              auth_url, page_count⟩

/-- A patch field overlaying an existing field: a key present in the
result dict replaces the old value, an absent key keeps it. -/
def overlayField {α : Type} : Option α → Option α → Option α
  | some v, _ => some v
  | none, old => old

/-- `Account(**response.result)` (source line 163): requires `short_name`
to be present (a missing required argument raises `TypeError`) and re-runs
every field validator. -/
def accountFromPatch (p : AccountPatch) : Except TgError Account :=
  match p.short_name with
  | none => .error (.typeError
      "Account.__init__() missing 1 required positional argument: 'short_name'")
  | some sn => mkAccount sn p.author_name p.author_url p.access_token
      p.auth_url p.page_count

/-- `attrs.evolve(self.account, **response.result)` (source lines 184 and
197): `attrs.evolve` on `None` raises `TypeError`; on an account it
rebuilds the record through the validating constructor with the patch's
present fields replacing the old ones. -/
def evolveAccount (st : Option Account) (p : AccountPatch) :
    Except TgError Account :=
  match st with
  | none => .error (.typeError "NoneType is not an attrs-decorated class")
  | some a => mkAccount (p.short_name.getD a.short_name)
      (overlayField p.author_name a.author_name)
      (overlayField p.author_url a.author_url)
      (overlayField p.access_token a.access_token)
      (overlayField p.auth_url a.auth_url)
      (overlayField p.page_count a.page_count)

/-- `Telegraph.createAccount` (source lines 149–164), with the transport
stubbed by the decoded envelope `env`. Returns the held-account state
after the call, the payloads handed to the transport, and the outcome. -/
def createAccount (st : Option Account) (short_name : String)
    (author_name author_url : Option String) (env : Envelope AccountPatch) :
    Option Account × List Payload × Except TgError Account :=
  let data : Payload :=
    [("short_name", .str short_name)] ++
    (if truthyStr author_name then
      [("author_name", FormValue.str (author_name.getD ""))] else []) ++
    (if truthyStr author_url then
      [("author_url", FormValue.str (author_url.getD ""))] else [])
  match requestCheck env with
  | .error e => (st, [data], .error e)
  | .ok res =>
      match res.result with
      | none => (st, [data], .error (.typeError
          "Account() argument after ** must be a mapping, not NoneType"))
      | some p =>
          match accountFromPatch p with
          | .error e => (st, [data], .error e)
          | .ok acc => (some acc, [data], .ok acc)

/-- `Telegraph.editAccountInfo` (source lines 166–185): after a successful
request, a truthy `result` is overlaid onto the held account with
`attrs.evolve`, then `self.account` (possibly still `None`) is returned. -/
def editAccountInfo (st : Option Account) (access_token : String)
    (short_name author_name author_url : Option String)
    (env : Envelope AccountPatch) :
    Option Account × List Payload × Except TgError (Option Account) :=
  let data : Payload :=
    [("access_token", .str access_token)] ++
    (if truthyStr short_name then
      [("short_name", FormValue.str (short_name.getD ""))] else []) ++
    (if truthyStr author_name then
      [("author_name", FormValue.str (author_name.getD ""))] else []) ++
    (if truthyStr author_url then
      [("author_url", FormValue.str (author_url.getD ""))] else [])
  match requestCheck env with
  | .error e => (st, [data], .error e)
  | .ok res =>
      match res.result with
      | none => (st, [data], .ok st)
      | some p =>
          if p.isEmpty then (st, [data], .ok st)
          else
            match evolveAccount st p with
            | .error e => (st, [data], .error e)
            | .ok acc => (some acc, [data], .ok (some acc))

/-- `Telegraph.getAccountInfo` (source lines 187–198): same post-request
handling as `editAccountInfo`. -/
def getAccountInfo (st : Option Account) (access_token : String)
    (fields : Option (List String)) (env : Envelope AccountPatch) :
    Option Account × List Payload × Except TgError (Option Account) :=
  let data : Payload :=
    [("access_token", .str access_token)] ++
    (match fields with
     | some fs => if fs.isEmpty then [] else
         [("fields", FormValue.dumps (Json.arr (fs.map Json.str)))]
     | none => [])
  match requestCheck env with
  | .error e => (st, [data], .error e)
  | .ok res =>
      match res.result with
      | none => (st, [data], .ok st)
      | some p =>
          if p.isEmpty then (st, [data], .ok st)
          else
            match evolveAccount st p with
            | .error e => (st, [data], .error e)
            | .ok acc => (some acc, [data], .ok (some acc))

/-- `Telegraph.revokeAccessToken` (source lines 200–206): a truthy result
is overlaid with `attrs.evolve(self.account,
access_token=result.get("access_token"), auth_url=result.get("auth_url"))`
— both keyword arguments are always passed, with `result.get` yielding
`None` for an absent key, and evolve re-runs the validators. -/
def revokeAccessToken (st : Option Account) (access_token : String)
    (env : Envelope AccountPatch) :
    Option Account × List Payload × Except TgError (Option Account) :=
  let data : Payload := [("access_token", .str access_token)]
  match requestCheck env with
  | .error e => (st, [data], .error e)
  | .ok res =>
      match res.result with
      | none => (st, [data], .ok st)
      | some p =>
          if p.isEmpty then (st, [data], .ok st)
          else
            match st with
            | none => (st, [data], .error (.typeError
                "NoneType is not an attrs-decorated class"))
            | some a =>
                match mkAccount a.short_name a.author_name a.author_url
                    p.access_token p.auth_url a.page_count with
                | .error e => (st, [data], .error e)
                | .ok acc => (some acc, [data], .ok (some acc))

/-- The `Page` record (source lines 92–103). The four required fields are
type-checked strings; `content` is stored as the raw decoded JSON value
(the source applies no converter to it). -/
structure Page where
  path : String
  url : String
  title : String
  description : String
  author_name : Option String := none
  author_url : Option String := none
  image_url : Option String := none
  content : Option Json := none
  views : Option Int := none
  can_edit : Option Bool := none

/-- A decoded page `result` dict: each `Page` field present or absent. -/
structure PagePatch where
  path : Option String := none
  url : Option String := none
  title : Option String := none
  description : Option String := none
  author_name : Option String := none
  author_url : Option String := none
  image_url : Option String := none
  content : Option Json := none
  views : Option Int := none
  can_edit : Option Bool := none

/-- `Page(**result)` (source lines 240, 276, 282, 295): each of the four
required positional fields must be present, else `TypeError`. -/
def pageFromPatch (p : PagePatch) : Except TgError Page :=
  match p.path, p.url, p.title, p.description with
  | some pa, some u, some t, some d =>
      .ok ⟨pa, u, t, d, p.author_name, p.author_url, p.image_url, p.content,
        p.views, p.can_edit⟩
  | _, _, _, _ => .error (.typeError
      "Page.__init__() missing required positional arguments")

/-- `str(return_content).lower()` (source lines 228, 264, 280). -/
def boolToForm (b : Bool) : String := if b then "true" else "false"

/-- `Telegraph.createPage` (source lines 208–240): the title length check
runs before the payload is built, the author checks run while it is built,
and only then is the transport invoked. A `ValueError` on any of them
leaves the payload list empty (zero network calls). -/
def createPage (access_token title : String) (content : List Node)
    (author_name author_url : Option String) (return_content : Bool)
    (env : Envelope PagePatch) : List Payload × Except TgError Page :=
  if ¬(1 ≤ title.length ∧ title.length ≤ 256) then
    ([], .error (.valueError "Title must be between 1 and 256 characters"))
  else
    let base : Payload :=
      [("access_token", .str access_token), ("title", .str title),
       ("content", .dumps (Json.arr (Node.toWireList content))),
       ("return_content", .str (boolToForm return_content))]
    if truthyStr author_name ∧ ¬((author_name.getD "").length ≤ 128) then
      ([], .error (.valueError "Author name must be between 0 and 128 characters"))
    else
      let withName := base ++ (if truthyStr author_name then
        [("author_name", FormValue.str (author_name.getD ""))] else [])
      if truthyStr author_url ∧ ¬((author_url.getD "").length ≤ 512) then
        ([], .error (.valueError "Author URL must be between 0 and 512 characters"))
      else
        let data := withName ++ (if truthyStr author_url then
          [("author_url", FormValue.str (author_url.getD ""))] else [])
        ([data],
          match requestCheck env with
          | .error e => .error e
          | .ok res =>
              match res.result with
              | none => .error (.typeError
                  "Page() argument after ** must be a mapping, not NoneType")
              | some p => pageFromPatch p)

/-- `Telegraph.editPage` (source lines 242–276): identical validation to
`createPage`, with the extra `path` form field and path-interpolated URL. -/
def editPage (access_token path title : String) (content : List Node)
    (author_name author_url : Option String) (return_content : Bool)
    (env : Envelope PagePatch) : List Payload × Except TgError Page :=
  if ¬(1 ≤ title.length ∧ title.length ≤ 256) then
    ([], .error (.valueError "Title must be between 1 and 256 characters"))
  else
    let base : Payload :=
      [("access_token", .str access_token), ("path", .str path),
       ("title", .str title),
       ("content", .dumps (Json.arr (Node.toWireList content))),
       ("return_content", .str (boolToForm return_content))]
    if truthyStr author_name ∧ ¬((author_name.getD "").length ≤ 128) then
      ([], .error (.valueError "Author name must be between 0 and 128 characters"))
    else
      let withName := base ++ (if truthyStr author_name then
        [("author_name", FormValue.str (author_name.getD ""))] else [])
      if truthyStr author_url ∧ ¬((author_url.getD "").length ≤ 512) then
        ([], .error (.valueError "Author URL must be between 0 and 512 characters"))
      else
        let data := withName ++ (if truthyStr author_url then
          [("author_url", FormValue.str (author_url.getD ""))] else [])
        ([data],
          match requestCheck env with
          | .error e => .error e
          | .ok res =>
              match res.result with
              | none => .error (.typeError
                  "Page() argument after ** must be a mapping, not NoneType")
              | some p => pageFromPatch p)

/-- `Telegraph.getPage` (source lines 278–282). -/
def getPage (return_content : Bool) (env : Envelope PagePatch) :
    List Payload × Except TgError Page :=
  let data : Payload := [("return_content", .str (boolToForm return_content))]
  ([data],
    match requestCheck env with
    | .error e => .error e
    | .ok res =>
        match res.result with
        | none => .error (.typeError
            "Page() argument after ** must be a mapping, not NoneType")
        | some p => pageFromPatch p)

/-- The `PageList` record (source lines 106–109). -/
structure PageList where
  total_count : Int
  pages : List Page

/-- A decoded `getPageList` result dict, keys present or absent. -/
structure PageListResult where
  total_count : Option Int := none
  pages : Option (List PagePatch) := none

/-- `[Page(**page) for page in ...]` (source line 295). -/
def pagesFromPatches : List PagePatch → Except TgError (List Page)
  | [] => .ok []
  | p :: ps =>
      match pageFromPatch p with
      | .error e => .error e
      | .ok page =>
          match pagesFromPatches ps with
          | .error e => .error e
          | .ok rest => .ok (page :: rest)

/-- `Telegraph.getPageList` (source lines 284–296): offset and limit are
range-checked before the transport is invoked; afterwards
`result["pages"]` is decoded into `Page` values and the result into a
`PageList`. -/
def getPageList (access_token : String) (offset limit : Int)
    (env : Envelope PageListResult) :
    List Payload × Except TgError PageList :=
  if ¬(0 ≤ offset) then
    ([], .error (.valueError "Offset must be a non-negative integer"))
  else if ¬(0 ≤ limit ∧ limit ≤ 200) then
    ([], .error (.valueError "Limit must be between 0 and 200"))
  else
    let data : Payload :=
      [("access_token", .str access_token), ("offset", .str (toString offset)),
       ("limit", .str (toString limit))]
    ([data],
      match requestCheck env with
      | .error e => .error e
      | .ok res =>
          match res.result with
          | none => .error (.typeError "NoneType object is not subscriptable")
          | some r =>
              match r.pages with
              | none => .error (.keyError "pages")
              | some ps =>
                  match pagesFromPatches ps with
                  | .error e => .error e
                  | .ok pages =>
                      match r.total_count with
                      | none => .error (.typeError
                          "PageList.__init__() missing 1 required positional argument: 'total_count'")
                      | some tc => .ok ⟨tc, pages⟩)

/-- The `PageViews` record (source lines 112–114). -/
structure PageViews where
  views : Int
deriving Repr, DecidableEq

/-- A decoded `getViews` result dict. -/
structure ViewsResult where
  views : Option Int := none

/-- `Telegraph.getViews` (source lines 298–326): each of year, month, day,
hour is range-checked only when truthy (present and nonzero), in that
order, before the transport is invoked; falsy values are omitted from the
payload entirely. -/
def getViews (year month day hour : Option Int) (env : Envelope ViewsResult) :
    List Payload × Except TgError PageViews :=
  if truthyInt year ∧ ¬(2000 ≤ year.getD 0 ∧ year.getD 0 ≤ 2100) then
    ([], .error (.valueError "Year must be between 2000 and 2100"))
  else if truthyInt month ∧ ¬(1 ≤ month.getD 0 ∧ month.getD 0 ≤ 12) then
    ([], .error (.valueError "Month must be between 1 and 12"))
  else if truthyInt day ∧ ¬(1 ≤ day.getD 0 ∧ day.getD 0 ≤ 31) then
    ([], .error (.valueError "Day must be between 1 and 31"))
  else if truthyInt hour ∧ ¬(0 ≤ hour.getD 0 ∧ hour.getD 0 ≤ 24) then
    ([], .error (.valueError "Hour must be between 0 and 24"))
  else
    let data : Payload :=
      (if truthyInt year then [("year", FormValue.str (toString (year.getD 0)))] else []) ++
      (if truthyInt month then [("month", FormValue.str (toString (month.getD 0)))] else []) ++
      (if truthyInt day then [("day", FormValue.str (toString (day.getD 0)))] else []) ++
      (if truthyInt hour then [("hour", FormValue.str (toString (hour.getD 0)))] else [])
    ([data],
      match requestCheck env with
      | .error e => .error e
      | .ok res =>
          match res.result with
          | none => .error (.typeError
              "PageViews() argument after ** must be a mapping, not NoneType")
          | some r =>
              match r.views with
              | none => .error (.typeError
                  "PageViews.__init__() missing 1 required positional argument: 'views'")
              | some v => .ok ⟨v⟩)

/-! ## Theorems -/

/-- `Node.toWireList` is elementwise `Node.toWire`. -/
theorem toWireList_eq_map (ns : List Node) :
    Node.toWireList ns = ns.map Node.toWire := by
  induction ns with
  | nil => simp [Node.toWireList]
  | cons n ns ih => simp [Node.toWireList, ih]

/-- The key list of a serialized element. -/
theorem element_keys (tag : String) (attrs : Option (List (String × String)))
    (children : Option (List Node)) :
    (Node.toWire (.element tag attrs children)).keys =
      "tag" ::
        ((match attrs with
          | some a => if a.isEmpty then [] else ["attrs"]
          | none => []) ++
         (match children with
          | some c => if c.isEmpty then [] else ["children"]
          | none => [])) := by
  cases attrs <;> cases children <;>
    simp only [Node.toWire, Json.keys, List.map_cons, List.map_append,
      apply_ite (List.map Prod.fst)] <;> simp

/-- C1: for every constructed element node, the wire form has key `tag`
always, key `attrs` iff the attrs map is non-null and non-empty, and key
`children` iff the children list is non-null and non-empty; a non-empty
children list is serialized as the array of recursively transformed
children, and a text child is passed through verbatim as a bare string.
The transform is a total Lean function, hence pure and total. -/
theorem C1_to_dict_wire_form (tag : String)
    (attrs : Option (List (String × String))) (children : Option (List Node)) :
    ("tag" ∈ (Node.toWire (.element tag attrs children)).keys) ∧
    (("attrs" ∈ (Node.toWire (.element tag attrs children)).keys) ↔
      ∃ a, attrs = some a ∧ a ≠ []) ∧
    (("children" ∈ (Node.toWire (.element tag attrs children)).keys) ↔
      ∃ c, children = some c ∧ c ≠ []) ∧
    (∀ c, children = some c → c ≠ [] →
      (Node.toWire (.element tag attrs children)).lookup "children" =
        some (Json.arr (c.map Node.toWire))) ∧
    (∀ s, Node.toWire (.text s) = .str s) := by
  refine ⟨?_, ?_, ?_, ?_, ?_⟩
  · simp [element_keys]
  · rw [element_keys]
    cases attrs with
    | none =>
        cases children with
        | none => simp
        | some c => by_cases hc : c = [] <;> simp [hc, List.isEmpty_iff]
    | some a =>
        by_cases ha : a = [] <;>
        cases children with
        | none => simp [ha, List.isEmpty_iff]
        | some c =>
            by_cases hc : c = [] <;> simp [ha, hc, List.isEmpty_iff]
  · rw [element_keys]
    cases children with
    | none =>
        cases attrs with
        | none => simp
        | some a => by_cases ha : a = [] <;> simp [ha, List.isEmpty_iff]
    | some c =>
        by_cases hc : c = [] <;>
        cases attrs with
        | none => simp [hc, List.isEmpty_iff]
        | some a =>
            by_cases ha : a = [] <;> simp [ha, hc, List.isEmpty_iff]
  · intro c hc hne
    subst hc
    have hne' : c.isEmpty = false := by
      simp [List.isEmpty_iff, hne]
    cases attrs with
    | none =>
        simp [Node.toWire, Json.lookup, hne', List.lookup, toWireList_eq_map]
    | some a =>
        by_cases ha : a = [] <;>
          simp [Node.toWire, Json.lookup, ha, hne', List.lookup,
            toWireList_eq_map, List.isEmpty_iff]
  · intro s
    simp [Node.toWire]

/-- Witness for C1 at a concrete tree. -/
theorem C1_to_dict_wire_form_witness :
    (Node.toWire (.element "p" none (some [Node.text "hi"]))).lookup "children" =
      some (Json.arr [Json.str "hi"]) := by
  have h := (C1_to_dict_wire_form "p" none (some [Node.text "hi"])).2.2.2.1
    [Node.text "hi"] rfl (by simp)
  simpa [Node.toWire] using h

/-- C2 counterexample: the allowed-tag set does not have 21 elements — the
source set literal holds 24 distinct tags. -/
theorem C2_counterexample :
    ALLOWED_TAGS.Nodup ∧ ALLOWED_TAGS.length = 24 ∧ ALLOWED_TAGS.length ≠ 21 :=
  ⟨by decide, rfl, by decide⟩

/-- C2 (amended): the set of allowed element tags is a fixed closed set of
exactly 24 distinct tags; constructing an element node with the
non-member tag "script" fails with a `ValueError` at construction time,
and construction with any member tag passes the tag check. -/
theorem C2_allowed_tags (t : String) (h : t ∈ ALLOWED_TAGS) :
    ALLOWED_TAGS.Nodup ∧ ALLOWED_TAGS.length = 24 ∧
    (∃ m, mkNodeElement "script" none none = .error (.valueError m)) ∧
    (∀ attrs children, mkNodeElement t attrs children =
      .ok (.element t attrs children)) := by
  refine ⟨by decide, rfl, ⟨_, rfl⟩, ?_⟩
  intro attrs children
  simp [mkNodeElement, h]

/-- Witness for C2 at the member tag "a". -/
theorem C2_allowed_tags_witness :
    mkNodeElement "a" none none = .ok (.element "a" none none) :=
  (C2_allowed_tags "a" (by decide)).2.2.2 none none

/-- C3: when the decoded envelope has `ok = false` and carries an error
string, the envelope check raises `TelegraphError` with that string
verbatim and never returns a value; with `ok = true` it returns the
decoded result. Instantiated at `getPage`, including the spec's concrete
`PAGE_NOT_FOUND` example. -/
theorem C3_remote_error {ρ : Type} (env : Envelope ρ) (e : String) (rc : Bool)
    (envP : Envelope PagePatch) :
    (env.ok = false → env.error = some e →
      requestCheck env = .error (.remote e)) ∧
    (env.ok = true → requestCheck env = .ok env) ∧
    (envP.ok = false → envP.error = some e →
      (getPage rc envP).2 = .error (.remote e)) ∧
    ((getPage rc ⟨false, none, some "PAGE_NOT_FOUND"⟩).2 =
      .error (.remote "PAGE_NOT_FOUND")) := by
  refine ⟨?_, ?_, ?_, ?_⟩
  · intro h he
    simp [requestCheck, h, he]
  · intro h
    simp [requestCheck, h]
  · intro h he
    simp [getPage, requestCheck, h, he]
  · simp [getPage, requestCheck]

/-- Witness for C3 at a concrete failing envelope. -/
theorem C3_remote_error_witness :
    requestCheck (⟨false, none, some "X"⟩ : Envelope Unit) =
      .error (.remote "X") ∧
    (getPage false ⟨false, none, some "X"⟩).2 = .error (.remote "X") := by
  have h := @C3_remote_error Unit ⟨false, none, some "X"⟩ "X" false
    ⟨false, none, some "X"⟩
  exact ⟨h.1 rfl rfl, h.2.2.1 rfl rfl⟩

/-- A successful validating construction returns exactly the given fields. -/
theorem mkAccount_ok (sn : String) (an au tk auth : Option String)
    (pc : Option Int) (a : Account)
    (h : mkAccount sn an au tk auth pc = .ok a) :
    a = ⟨sn, an, au, tk, auth, pc⟩ := by
  unfold mkAccount at h
  cases h1 : lengthValidate (some 1) (some 32) "short_name" (.str sn) <;>
    rw [h1] at h
  · exact absurd h (by simp)
  cases h2 : optionalLength none (some 128) "author_name" an <;> rw [h2] at h
  · exact absurd h (by simp)
  cases h3 : optionalLength none (some 512) "author_url" au <;> rw [h3] at h
  · exact absurd h (by simp)
  simpa using h.symm

/-- C4: `createAccount` replaces the held Account wholesale (the outcome
and resulting state are independent of the prior state);
`editAccountInfo` and `getAccountInfo` overlay onto the existing held
Account exactly the fields present in the returned result, leaving every
absent field unchanged; `revokeAccessToken` rewrites only the
`access_token` and `auth_url` fields from the result, leaving all other
fields unchanged. -/
theorem C4_account_update_semantics (st st' : Option Account)
    (old acc : Account) (sn tok : String) (sname an au : Option String)
    (flds : Option (List String)) (env : Envelope AccountPatch)
    (p : AccountPatch) :
    (∀ a, (createAccount st sn an au env).2.2 = .ok a →
       (createAccount st sn an au env).1 = some a ∧
       (createAccount st' sn an au env).2.2 = .ok a ∧
       (createAccount st' sn an au env).1 = some a) ∧
    (env.result = some p →
      (editAccountInfo (some old) tok sname an au env).2.2 = .ok (some acc) →
      p.isEmpty = false →
        (editAccountInfo (some old) tok sname an au env).1 = some acc ∧
        acc.short_name = p.short_name.getD old.short_name ∧
        acc.author_name = overlayField p.author_name old.author_name ∧
        acc.author_url = overlayField p.author_url old.author_url ∧
        acc.access_token = overlayField p.access_token old.access_token ∧
        acc.auth_url = overlayField p.auth_url old.auth_url ∧
        acc.page_count = overlayField p.page_count old.page_count) ∧
    (env.result = some p →
      (getAccountInfo (some old) tok flds env).2.2 = .ok (some acc) →
      p.isEmpty = false →
        (getAccountInfo (some old) tok flds env).1 = some acc ∧
        acc.short_name = p.short_name.getD old.short_name ∧
        acc.author_name = overlayField p.author_name old.author_name ∧
        acc.author_url = overlayField p.author_url old.author_url ∧
        acc.access_token = overlayField p.access_token old.access_token ∧
        acc.auth_url = overlayField p.auth_url old.auth_url ∧
        acc.page_count = overlayField p.page_count old.page_count) ∧
    (env.result = some p →
      (revokeAccessToken (some old) tok env).2.2 = .ok (some acc) →
      p.isEmpty = false →
        (revokeAccessToken (some old) tok env).1 = some acc ∧
        acc.short_name = old.short_name ∧
        acc.author_name = old.author_name ∧
        acc.author_url = old.author_url ∧
        acc.access_token = p.access_token ∧
        acc.auth_url = p.auth_url ∧
        acc.page_count = old.page_count) := by
  refine ⟨?_, ?_, ?_, ?_⟩
  · intro a ha
    cases h1 : requestCheck env with
    | error e => simp [createAccount, h1] at ha
    | ok res =>
        cases h2 : res.result with
        | none => simp [createAccount, h1, h2] at ha
        | some q =>
            cases h3 : accountFromPatch q with
            | error e => simp [createAccount, h1, h2, h3] at ha
            | ok acc2 =>
                simp [createAccount, h1, h2, h3] at ha ⊢
                simp [ha]
  · intro hres ha hne
    cases h1 : requestCheck env with
    | error e => simp [editAccountInfo, h1] at ha
    | ok res =>
        have hres' : res = env := by
          unfold requestCheck at h1
          by_cases hok : env.ok <;> simp [hok] at h1
          · exact h1.symm
          · cases he : env.error <;> rw [he] at h1 <;> simp at h1
        subst hres'
        cases h4 : evolveAccount (some old) p with
        | error e => simp [editAccountInfo, h1, hres, hne, h4] at ha
        | ok acc2 =>
            simp [editAccountInfo, h1, hres, hne, h4] at ha ⊢
            unfold evolveAccount at h4
            have := mkAccount_ok _ _ _ _ _ _ _ h4
            subst this
            subst ha
            simp
  · intro hres ha hne
    cases h1 : requestCheck env with
    | error e => simp [getAccountInfo, h1] at ha
    | ok res =>
        have hres' : res = env := by
          unfold requestCheck at h1
          by_cases hok : env.ok <;> simp [hok] at h1
          · exact h1.symm
          · cases he : env.error <;> rw [he] at h1 <;> simp at h1
        subst hres'
        cases h4 : evolveAccount (some old) p with
        | error e => simp [getAccountInfo, h1, hres, hne, h4] at ha
        | ok acc2 =>
            simp [getAccountInfo, h1, hres, hne, h4] at ha ⊢
            unfold evolveAccount at h4
            have := mkAccount_ok _ _ _ _ _ _ _ h4
            subst this
            subst ha
            simp
  · intro hres ha hne
    cases h1 : requestCheck env with
    | error e => simp [revokeAccessToken, h1] at ha
    | ok res =>
        have hres' : res = env := by
          unfold requestCheck at h1
          by_cases hok : env.ok <;> simp [hok] at h1
          · exact h1.symm
          · cases he : env.error <;> rw [he] at h1 <;> simp at h1
        subst hres'
        cases h4 : mkAccount old.short_name old.author_name old.author_url
            p.access_token p.auth_url old.page_count with
        | error e => simp [revokeAccessToken, h1, hres, hne, h4] at ha
        | ok acc2 =>
            simp [revokeAccessToken, h1, hres, hne, h4] at ha ⊢
            have := mkAccount_ok _ _ _ _ _ _ _ h4
            subst this
            subst ha
            simp

/-- Witness for C4: the spec's overlay example — after holding an account
with access token "T1", an `editAccountInfo` stub returning only
`short_name = "new"` yields short_name "new" with access_token still "T1". -/
theorem C4_account_update_semantics_witness :
    (editAccountInfo (some ⟨"old", none, none, some "T1", none, none⟩) "tok"
      none none none
      ⟨true, some ⟨some "new", none, none, none, none, none⟩, none⟩).1 =
      some ⟨"new", none, none, some "T1", none, none⟩ := by
  have h := (C4_account_update_semantics none none
    ⟨"old", none, none, some "T1", none, none⟩
    ⟨"new", none, none, some "T1", none, none⟩ "x" "tok" none none none none
    ⟨true, some ⟨some "new", none, none, none, none, none⟩, none⟩
    ⟨some "new", none, none, none, none, none⟩).2.1 rfl (by rfl) rfl
  exact h.1

/-- `createPage` argument-validation errors occur before any transport
invocation. -/
theorem createPage_validation_error (tok title : String) (content : List Node)
    (an au : Option String) (rc : Bool) (env : Envelope PagePatch)
    (h : ¬(1 ≤ title.length ∧ title.length ≤ 256) ∨
         (∃ s, an = some s ∧ 128 < s.length) ∨
         (∃ s, au = some s ∧ 512 < s.length)) :
    (createPage tok title content an au rc env).1 = [] ∧
    ∃ m, (createPage tok title content an au rc env).2 =
      .error (.valueError m) := by
  by_cases ht : 1 ≤ title.length ∧ title.length ≤ 256
  · rcases h with hT | ⟨s, hs, hl⟩ | ⟨s, hs, hl⟩
    · exact absurd ht hT
    · have h1 : truthyStr an = true := by
        subst hs
        simp [truthyStr]
        intro hcon
        subst hcon
        simp at hl
      have h2 : ¬((an.getD "").length ≤ 128) := by
        subst hs
        simp
        omega
      constructor
      · simp [createPage, ht.1, ht.2, h1, h2]
      · exact ⟨"Author name must be between 0 and 128 characters",
          by simp [createPage, ht.1, ht.2, h1, h2]⟩
    · by_cases hA : truthyStr an = true ∧ ¬((an.getD "").length ≤ 128)
      · constructor
        · simp [createPage, ht.1, ht.2, hA.1, hA.2]
        · exact ⟨"Author name must be between 0 and 128 characters",
            by simp [createPage, ht.1, ht.2, hA.1, hA.2]⟩
      · have h1 : truthyStr au = true := by
          subst hs
          simp [truthyStr]
          intro hcon
          subst hcon
          simp at hl
        have h2 : ¬((au.getD "").length ≤ 512) := by
          subst hs
          simp
          omega
        have hA2 : ¬(truthyStr an = true ∧ 128 < (an.getD "").length) := by
          simpa using hA
        constructor
        · simp [createPage, ht.1, ht.2, hA2, h1, h2]
        · exact ⟨"Author URL must be between 0 and 512 characters",
            by simp [createPage, ht.1, ht.2, hA2, h1, h2]⟩
  · constructor
    · simp [createPage, ht]
    · exact ⟨"Title must be between 1 and 256 characters",
        by simp [createPage, ht]⟩

/-- `editPage` argument-validation errors occur before any transport
invocation. -/
theorem editPage_validation_error (tok pth title : String)
    (content : List Node) (an au : Option String) (rc : Bool)
    (env : Envelope PagePatch)
    (h : ¬(1 ≤ title.length ∧ title.length ≤ 256) ∨
         (∃ s, an = some s ∧ 128 < s.length) ∨
         (∃ s, au = some s ∧ 512 < s.length)) :
    (editPage tok pth title content an au rc env).1 = [] ∧
    ∃ m, (editPage tok pth title content an au rc env).2 =
      .error (.valueError m) := by
  by_cases ht : 1 ≤ title.length ∧ title.length ≤ 256
  · rcases h with hT | ⟨s, hs, hl⟩ | ⟨s, hs, hl⟩
    · exact absurd ht hT
    · have h1 : truthyStr an = true := by
        subst hs
        simp [truthyStr]
        intro hcon
        subst hcon
        simp at hl
      have h2 : ¬((an.getD "").length ≤ 128) := by
        subst hs
        simp
        omega
      constructor
      · simp [editPage, ht.1, ht.2, h1, h2]
      · exact ⟨"Author name must be between 0 and 128 characters",
          by simp [editPage, ht.1, ht.2, h1, h2]⟩
    · by_cases hA : truthyStr an = true ∧ ¬((an.getD "").length ≤ 128)
      · constructor
        · simp [editPage, ht.1, ht.2, hA.1, hA.2]
        · exact ⟨"Author name must be between 0 and 128 characters",
            by simp [editPage, ht.1, ht.2, hA.1, hA.2]⟩
      · have h1 : truthyStr au = true := by
          subst hs
          simp [truthyStr]
          intro hcon
          subst hcon
          simp at hl
        have h2 : ¬((au.getD "").length ≤ 512) := by
          subst hs
          simp
          omega
        have hA2 : ¬(truthyStr an = true ∧ 128 < (an.getD "").length) := by
          simpa using hA
        constructor
        · simp [editPage, ht.1, ht.2, hA2, h1, h2]
        · exact ⟨"Author URL must be between 0 and 512 characters",
            by simp [editPage, ht.1, ht.2, hA2, h1, h2]⟩
  · constructor
    · simp [editPage, ht]
    · exact ⟨"Title must be between 1 and 256 characters",
        by simp [editPage, ht]⟩

/-- C5: for both `createPage` and `editPage`, a title whose length is
outside [1,256], or a provided author_name longer than 128, or a provided
author_url longer than 512, raises `ValueError` with zero transport
invocations (the payload list handed to the transport is empty). -/
theorem C5_page_arg_validation (tok pth title : String) (content : List Node)
    (an au : Option String) (rc : Bool) (env : Envelope PagePatch)
    (h : ¬(1 ≤ title.length ∧ title.length ≤ 256) ∨
         (∃ s, an = some s ∧ 128 < s.length) ∨
         (∃ s, au = some s ∧ 512 < s.length)) :
    ((createPage tok title content an au rc env).1 = [] ∧
     ∃ m, (createPage tok title content an au rc env).2 =
       .error (.valueError m)) ∧
    ((editPage tok pth title content an au rc env).1 = [] ∧
     ∃ m, (editPage tok pth title content an au rc env).2 =
       .error (.valueError m)) :=
  ⟨createPage_validation_error tok title content an au rc env h,
   editPage_validation_error tok pth title content an au rc env h⟩

/-- Witness for C5: the spec's `createPage(title="")` example. -/
theorem C5_page_arg_validation_witness :
    (createPage "tok" "" [] none none false ⟨true, none, none⟩).1 = [] :=
  (C5_page_arg_validation "tok" "p" "" [] none none false ⟨true, none, none⟩
    (Or.inl (by simp))).1.1

/-- C6: the length validator accepts `None` unconditionally; accepts every
string whose length lies within the (present) bounds; raises a
`ValueError` whose message contains the field name for a string whose
length lies outside the closed interval; and raises a `TypeError` (also
naming the field) for any present non-string value. -/
theorem C6_length_validator (min max : Option Nat) (name s : String)
    (n : Int) :
    (lengthValidate min max name .none = .ok ()) ∧
    ((∀ m, min = some m → m ≤ s.length) → (∀ M, max = some M → s.length ≤ M) →
      lengthValidate min max name (.str s) = .ok ()) ∧
    (((∃ m, min = some m ∧ s.length < m) ∨
      (∃ M, max = some M ∧ M < s.length)) →
      ∃ pre suf, lengthValidate min max name (.str s) =
        .error (.valueError (pre ++ name ++ suf))) ∧
    (∃ pre suf, lengthValidate min max name (.int n) =
      .error (.typeError (pre ++ name ++ suf))) := by
  refine ⟨rfl, ?_, ?_, ?_⟩
  · intro hmin hmax
    cases min with
    | none =>
        cases max with
        | none => rfl
        | some M =>
            have hM := hmax M rfl
            simp [lengthValidate, Nat.not_lt.mpr hM]
    | some m =>
        have hm := hmin m rfl
        cases max with
        | none =>
            simp [lengthValidate, Nat.not_lt.mpr hm]
        | some M =>
            have hM := hmax M rfl
            simp [lengthValidate, Nat.not_lt.mpr hm, Nat.not_lt.mpr hM]
  · intro h
    rcases h with ⟨m, hm, hlt⟩ | ⟨M, hM, hgt⟩
    · subst hm
      exact ⟨"The attribute ", " length must be at least " ++ toString m
        ++ " (got " ++ toString s.length ++ ").",
        by simp [lengthValidate, hlt, String.append_assoc]⟩
    · subst hM
      cases min with
      | none =>
          exact ⟨"The attribute ", " length must be at most " ++ toString M
            ++ " (got " ++ toString s.length ++ ").",
            by simp [lengthValidate, hgt, String.append_assoc]⟩
      | some m =>
          by_cases hlt2 : s.length < m
          · exact ⟨"The attribute ", " length must be at least " ++ toString m
              ++ " (got " ++ toString s.length ++ ").",
              by simp [lengthValidate, hlt2, String.append_assoc]⟩
          · exact ⟨"The attribute ", " length must be at most " ++ toString M
              ++ " (got " ++ toString s.length ++ ").",
              by simp [lengthValidate, hlt2, hgt, String.append_assoc]⟩
  · exact ⟨"The attribute ", " must be a string (got " ++ toString n
      ++ " that is a <class 'int'>).",
      by simp [lengthValidate, String.append_assoc]⟩

/-- Witness for C6 at concrete bounds and values. -/
theorem C6_length_validator_witness :
    lengthValidate (some 1) (some 3) "f" (.str "ab") = .ok () := by
  have h := (C6_length_validator (some 1) (some 3) "f" "ab" 0).2.1
  exact h (by intro m hm; cases hm; decide) (by intro M hM; cases hM; decide)

/-- C7: `getPageList` rejects a negative offset or a limit outside [0,200]
with a `ValueError` and zero transport invocations; with offset 0, limit
200 and a stub result `{"total_count": 0, "pages": []}` it succeeds,
returning a `PageList` with total_count 0 and no pages. -/
theorem C7_getPageList (tok : String) (offset limit : Int)
    (env : Envelope PageListResult) :
    ((offset < 0 ∨ limit < 0 ∨ 200 < limit) →
      (getPageList tok offset limit env).1 = [] ∧
      ∃ m, (getPageList tok offset limit env).2 = .error (.valueError m)) ∧
    (getPageList tok 0 200 ⟨true, some ⟨some 0, some []⟩, none⟩ =
      ([[("access_token", .str tok), ("offset", .str "0"),
         ("limit", .str "200")]],
       .ok ⟨0, []⟩)) := by
  constructor
  · intro h
    by_cases h1 : 0 ≤ offset
    · have h2 : ¬(0 ≤ limit ∧ limit ≤ 200) := by omega
      constructor
      · simp [getPageList, h1, h2]
      · exact ⟨"Limit must be between 0 and 200",
          by simp [getPageList, h1, h2]⟩
    · constructor
      · simp [getPageList, h1]
      · exact ⟨"Offset must be a non-negative integer",
          by simp [getPageList, h1]⟩
  · rfl

/-- Witness for C7: the spec's `getPageList(offset=-1)` example. -/
theorem C7_getPageList_witness :
    (getPageList "tok" (-1) 50 ⟨true, none, none⟩).1 = [] :=
  ((C7_getPageList "tok" (-1) 50 ⟨true, none, none⟩).1
    (Or.inl (by norm_num))).1

set_option maxHeartbeats 1000000 in
/-- C8: `getViews` range-checks year, month, day, hour only when provided
and nonzero, against [2000,2100], [1,12], [1,31] and [0,24]; a provided
nonzero out-of-range value raises `ValueError` with zero transport
invocations, and an absent or zero value is omitted from the request
payload entirely. -/
theorem C8_getViews_range_checks (year month day hour : Option Int)
    (env : Envelope ViewsResult) :
    ((∃ v, year = some v ∧ v ≠ 0 ∧ ¬(2000 ≤ v ∧ v ≤ 2100)) →
      (getViews year month day hour env).1 = [] ∧
      ∃ m, (getViews year month day hour env).2 = .error (.valueError m)) ∧
    ((∃ v, month = some v ∧ v ≠ 0 ∧ ¬(1 ≤ v ∧ v ≤ 12)) →
      (getViews year month day hour env).1 = [] ∧
      ∃ m, (getViews year month day hour env).2 = .error (.valueError m)) ∧
    ((∃ v, day = some v ∧ v ≠ 0 ∧ ¬(1 ≤ v ∧ v ≤ 31)) →
      (getViews year month day hour env).1 = [] ∧
      ∃ m, (getViews year month day hour env).2 = .error (.valueError m)) ∧
    ((∃ v, hour = some v ∧ v ≠ 0 ∧ ¬(0 ≤ v ∧ v ≤ 24)) →
      (getViews year month day hour env).1 = [] ∧
      ∃ m, (getViews year month day hour env).2 = .error (.valueError m)) ∧
    (∀ p, (getViews year month day hour env).1 = [p] →
      ((year = none ∨ year = some 0) → "year" ∉ p.map Prod.fst) ∧
      ((month = none ∨ month = some 0) → "month" ∉ p.map Prod.fst) ∧
      ((day = none ∨ day = some 0) → "day" ∉ p.map Prod.fst) ∧
      ((hour = none ∨ hour = some 0) → "hour" ∉ p.map Prod.fst)) := by
  refine ⟨?_, ?_, ?_, ?_, ?_⟩
  · rintro ⟨v, hv, hnz, hout⟩
    have hc1 : truthyInt year = true ∧
        ¬(2000 ≤ year.getD 0 ∧ year.getD 0 ≤ 2100) := by
      subst hv
      exact ⟨by simp [truthyInt, hnz], by simpa using hout⟩
    have e : getViews year month day hour env =
        ([], .error (.valueError "Year must be between 2000 and 2100")) := by
      unfold getViews
      rw [if_pos hc1]
    exact ⟨by rw [e], "Year must be between 2000 and 2100", by rw [e]⟩
  · rintro ⟨v, hv, hnz, hout⟩
    have hc2 : truthyInt month = true ∧
        ¬(1 ≤ month.getD 0 ∧ month.getD 0 ≤ 12) := by
      subst hv
      exact ⟨by simp [truthyInt, hnz], by simpa using hout⟩
    by_cases hc1 : truthyInt year = true ∧
        ¬(2000 ≤ year.getD 0 ∧ year.getD 0 ≤ 2100)
    · have e : getViews year month day hour env =
          ([], .error (.valueError "Year must be between 2000 and 2100")) := by
        unfold getViews
        rw [if_pos hc1]
      exact ⟨by rw [e], "Year must be between 2000 and 2100", by rw [e]⟩
    · have e : getViews year month day hour env =
          ([], .error (.valueError "Month must be between 1 and 12")) := by
        unfold getViews
        rw [if_neg hc1, if_pos hc2]
      exact ⟨by rw [e], "Month must be between 1 and 12", by rw [e]⟩
  · rintro ⟨v, hv, hnz, hout⟩
    have hc3 : truthyInt day = true ∧
        ¬(1 ≤ day.getD 0 ∧ day.getD 0 ≤ 31) := by
      subst hv
      exact ⟨by simp [truthyInt, hnz], by simpa using hout⟩
    by_cases hc1 : truthyInt year = true ∧
        ¬(2000 ≤ year.getD 0 ∧ year.getD 0 ≤ 2100)
    · have e : getViews year month day hour env =
          ([], .error (.valueError "Year must be between 2000 and 2100")) := by
        unfold getViews
        rw [if_pos hc1]
      exact ⟨by rw [e], "Year must be between 2000 and 2100", by rw [e]⟩
    · by_cases hc2 : truthyInt month = true ∧
          ¬(1 ≤ month.getD 0 ∧ month.getD 0 ≤ 12)
      · have e : getViews year month day hour env =
            ([], .error (.valueError "Month must be between 1 and 12")) := by
          unfold getViews
          rw [if_neg hc1, if_pos hc2]
        exact ⟨by rw [e], "Month must be between 1 and 12", by rw [e]⟩
      · have e : getViews year month day hour env =
            ([], .error (.valueError "Day must be between 1 and 31")) := by
          unfold getViews
          rw [if_neg hc1, if_neg hc2, if_pos hc3]
        exact ⟨by rw [e], "Day must be between 1 and 31", by rw [e]⟩
  · rintro ⟨v, hv, hnz, hout⟩
    have hc4 : truthyInt hour = true ∧
        ¬(0 ≤ hour.getD 0 ∧ hour.getD 0 ≤ 24) := by
      subst hv
      exact ⟨by simp [truthyInt, hnz], by simpa using hout⟩
    by_cases hc1 : truthyInt year = true ∧
        ¬(2000 ≤ year.getD 0 ∧ year.getD 0 ≤ 2100)
    · have e : getViews year month day hour env =
          ([], .error (.valueError "Year must be between 2000 and 2100")) := by
        unfold getViews
        rw [if_pos hc1]
      exact ⟨by rw [e], "Year must be between 2000 and 2100", by rw [e]⟩
    · by_cases hc2 : truthyInt month = true ∧
          ¬(1 ≤ month.getD 0 ∧ month.getD 0 ≤ 12)
      · have e : getViews year month day hour env =
            ([], .error (.valueError "Month must be between 1 and 12")) := by
          unfold getViews
          rw [if_neg hc1, if_pos hc2]
        exact ⟨by rw [e], "Month must be between 1 and 12", by rw [e]⟩
      · by_cases hc3 : truthyInt day = true ∧
            ¬(1 ≤ day.getD 0 ∧ day.getD 0 ≤ 31)
        · have e : getViews year month day hour env =
              ([], .error (.valueError "Day must be between 1 and 31")) := by
            unfold getViews
            rw [if_neg hc1, if_neg hc2, if_pos hc3]
          exact ⟨by rw [e], "Day must be between 1 and 31", by rw [e]⟩
        · have e : getViews year month day hour env =
              ([], .error (.valueError "Hour must be between 0 and 24")) := by
            unfold getViews
            rw [if_neg hc1, if_neg hc2, if_neg hc3, if_pos hc4]
          exact ⟨by rw [e], "Hour must be between 0 and 24", by rw [e]⟩
  · intro p hp
    by_cases hc1 : truthyInt year = true ∧
        ¬(2000 ≤ year.getD 0 ∧ year.getD 0 ≤ 2100)
    · unfold getViews at hp
      rw [if_pos hc1] at hp
      simp at hp
    · by_cases hc2 : truthyInt month = true ∧
          ¬(1 ≤ month.getD 0 ∧ month.getD 0 ≤ 12)
      · unfold getViews at hp
        rw [if_neg hc1, if_pos hc2] at hp
        simp at hp
      · by_cases hc3 : truthyInt day = true ∧
            ¬(1 ≤ day.getD 0 ∧ day.getD 0 ≤ 31)
        · unfold getViews at hp
          rw [if_neg hc1, if_neg hc2, if_pos hc3] at hp
          simp at hp
        · by_cases hc4 : truthyInt hour = true ∧
              ¬(0 ≤ hour.getD 0 ∧ hour.getD 0 ≤ 24)
          · unfold getViews at hp
            rw [if_neg hc1, if_neg hc2, if_neg hc3, if_pos hc4] at hp
            simp at hp
          · unfold getViews at hp
            rw [if_neg hc1, if_neg hc2, if_neg hc3, if_neg hc4] at hp
            have hdp : ((if truthyInt year = true then
                  [("year", FormValue.str (toString (year.getD 0)))] else []) ++
                ((if truthyInt month = true then
                  [("month", FormValue.str (toString (month.getD 0)))] else []) ++
                ((if truthyInt day = true then
                  [("day", FormValue.str (toString (day.getD 0)))] else []) ++
                (if truthyInt hour = true then
                  [("hour", FormValue.str (toString (hour.getD 0)))] else [])))) =
                p := by
              simpa using hp
            clear hp
            refine ⟨?_, ?_, ?_, ?_⟩ <;> intro hfalsy <;>
              rcases hfalsy with h | h <;> subst h <;> rw [← hdp] <;>
              split_ifs <;> simp_all [truthyInt]

/-- Witness for C8: a provided out-of-range year (1999) is rejected with
no transport invocation. -/
theorem C8_getViews_range_checks_witness :
    (getViews (some 1999) none none none ⟨true, none, none⟩).1 = [] :=
  ((C8_getViews_range_checks (some 1999) none none none
    ⟨true, none, none⟩).1 ⟨1999, rfl, by norm_num, by norm_num⟩).1

/-- C9: if an account-affecting operation fails with any error
(validation, transport-envelope or remote), the client's held Account
reference is left unchanged; the page operations never touch it. -/
theorem C9_no_mutation_on_failure (st : Option Account) (sn tok : String)
    (sname an au : Option String) (flds : Option (List String))
    (env : Envelope AccountPatch) :
    (∀ e, (createAccount st sn an au env).2.2 = .error e →
      (createAccount st sn an au env).1 = st) ∧
    (∀ e, (editAccountInfo st tok sname an au env).2.2 = .error e →
      (editAccountInfo st tok sname an au env).1 = st) ∧
    (∀ e, (getAccountInfo st tok flds env).2.2 = .error e →
      (getAccountInfo st tok flds env).1 = st) ∧
    (∀ e, (revokeAccessToken st tok env).2.2 = .error e →
      (revokeAccessToken st tok env).1 = st) := by
  refine ⟨?_, ?_, ?_, ?_⟩
  · intro e he
    cases h1 : requestCheck env with
    | error e2 => simp [createAccount, h1]
    | ok res =>
        cases h2 : res.result with
        | none => simp [createAccount, h1, h2]
        | some q =>
            cases h3 : accountFromPatch q with
            | error e2 => simp [createAccount, h1, h2, h3]
            | ok acc => simp [createAccount, h1, h2, h3] at he
  · intro e he
    cases h1 : requestCheck env with
    | error e2 => simp [editAccountInfo, h1]
    | ok res =>
        cases h2 : res.result with
        | none => simp [editAccountInfo, h1, h2] at he
        | some q =>
            by_cases hq : q.isEmpty = true
            · simp [editAccountInfo, h1, h2, hq] at he
            · cases h3 : evolveAccount st q with
              | error e2 => simp [editAccountInfo, h1, h2, hq, h3]
              | ok acc => simp [editAccountInfo, h1, h2, hq, h3] at he
  · intro e he
    cases h1 : requestCheck env with
    | error e2 => simp [getAccountInfo, h1]
    | ok res =>
        cases h2 : res.result with
        | none => simp [getAccountInfo, h1, h2] at he
        | some q =>
            by_cases hq : q.isEmpty = true
            · simp [getAccountInfo, h1, h2, hq] at he
            · cases h3 : evolveAccount st q with
              | error e2 => simp [getAccountInfo, h1, h2, hq, h3]
              | ok acc => simp [getAccountInfo, h1, h2, hq, h3] at he
  · intro e he
    cases h1 : requestCheck env with
    | error e2 => simp [revokeAccessToken, h1]
    | ok res =>
        cases h2 : res.result with
        | none => simp [revokeAccessToken, h1, h2] at he
        | some q =>
            by_cases hq : q.isEmpty = true
            · simp [revokeAccessToken, h1, h2, hq] at he
            · cases st with
              | none => simp [revokeAccessToken, h1, h2, hq]
              | some a =>
                  cases h3 : mkAccount a.short_name a.author_name a.author_url
                      q.access_token q.auth_url a.page_count with
                  | error e2 => simp [revokeAccessToken, h1, h2, hq, h3]
                  | ok acc => simp [revokeAccessToken, h1, h2, hq, h3] at he

/-- Witness for C9: a failed (`ok=false`) `createAccount` leaves the
(empty) held state untouched. -/
theorem C9_no_mutation_on_failure_witness :
    (createAccount none "s" none none ⟨false, none, some "E"⟩).1 = none :=
  (C9_no_mutation_on_failure none "s" "tok" none none none none
    ⟨false, none, some "E"⟩).1 (.remote "E") rfl

/-- C10: the overlay operations have the unstated precondition that an
Account is already held: with `self.account = None` and a non-empty
result, the `attrs.evolve(None, ...)` step raises `TypeError` and no
Account is stored or returned. -/
theorem C10_overlay_requires_account (tok : String)
    (sname an au : Option String) (flds : Option (List String))
    (env : Envelope AccountPatch) (p : AccountPatch)
    (hok : env.ok = true) (hres : env.result = some p)
    (hne : p.isEmpty = false) :
    ((editAccountInfo none tok sname an au env).1 = none ∧
     ∃ m, (editAccountInfo none tok sname an au env).2.2 =
       .error (.typeError m)) ∧
    ((getAccountInfo none tok flds env).1 = none ∧
     ∃ m, (getAccountInfo none tok flds env).2.2 = .error (.typeError m)) ∧
    ((revokeAccessToken none tok env).1 = none ∧
     ∃ m, (revokeAccessToken none tok env).2.2 = .error (.typeError m)) := by
  have h1 : requestCheck env = .ok env := by simp [requestCheck, hok]
  refine ⟨⟨?_, "NoneType is not an attrs-decorated class", ?_⟩,
    ⟨?_, "NoneType is not an attrs-decorated class", ?_⟩,
    ⟨?_, "NoneType is not an attrs-decorated class", ?_⟩⟩ <;>
    simp [editAccountInfo, getAccountInfo, revokeAccessToken, evolveAccount,
      h1, hres, hne]

/-- Witness for C10 at a concrete non-empty result. -/
theorem C10_overlay_requires_account_witness :
    (editAccountInfo none "tok" none none none
      ⟨true, some ⟨some "new", none, none, none, none, none⟩, none⟩).1 =
      none :=
  (C10_overlay_requires_account "tok" none none none none
    ⟨true, some ⟨some "new", none, none, none, none, none⟩, none⟩
    ⟨some "new", none, none, none, none, none⟩ rfl rfl rfl).1.1
